import Mathlib

/-!
Verification development for the ContactPro backend (LinkedIn scraping /
contact-unlocking service).  The definitions below are a shallow embedding of
the JavaScript source:

* `extractLinkedInId`        — linkedinHelper.js (src/unnamed/part_000)
* `profileExtractLinkedInId` — the Profile model's pre-save extractor (server.js)
* `transformLinkedInDataWithPhone`, `processItem`, `runStage`, `runBatch`,
  `scrapeHandler`            — routes/linkedinScraper.js, POST /scrape-linkedin
* `dashboardFetch`, `appendActivity` — the dashboard routes (GET / and PATCH /activity)

JavaScript truthiness on strings (undefined, null and the empty string are
falsy) is modelled by `Option String` together with `strOr`; machine numbers
that in the source are calendar years / counters are modelled as `Nat`.
-/

/-- JS `a || b` for string-valued expressions: `a` when present and non-empty,
else `b` (undefined/null and the empty string are falsy). -/
def strOr (a : Option String) (b : String) : String :=
  match a with
  | some s => if s = "" then b else s
  | none => b

/-- JS `String.prototype.trim`: strip leading and trailing whitespace. -/
def jsTrim (s : String) : String :=
  String.mk (((s.toList.dropWhile Char.isWhitespace).reverse.dropWhile Char.isWhitespace).reverse)

/-- JS `String.prototype.toLowerCase` (ASCII folding; every character the
embedding compares through this is ASCII). -/
def strToLower (s : String) : String := String.mk (s.toList.map Char.toLower)

/-- The needle occurs as a contiguous subsequence of the haystack. -/
def occursIn (needle : List Char) : List Char → Bool
  | [] => needle.isEmpty
  | c :: rest => needle.isPrefixOf (c :: rest) || occursIn needle rest

/-- JS `String.prototype.includes`. -/
def jsIncludes (s sub : String) : Bool := occursIn sub.toList s.toList

/-- JS `[...new Set(l)]` on strings: deduplicate, keeping the first occurrence of
each value in order. -/
def dedupFirst (l : List String) : List String :=
  l.foldl (fun acc s => if acc.contains s then acc else acc ++ [s]) []

/-- The suffix of the last `n` elements (MongoDB `$slice: -n`). -/
def lastN (n : Nat) (l : List String) : List String := l.drop (l.length - n)

/-- JS `String(m).padStart(2, '0')` for a month number. -/
def pad2 (n : Nat) : String := if n < 10 then "0" ++ toString n else toString n

/-- JS `m ? String(m).padStart(2,'0') : ''` — month 0 / absent month is falsy. -/
def monthStr (m? : Option Nat) : String :=
  match m? with
  | some m => if m = 0 then "" else pad2 m
  | none => ""

/-- JS `y || ''` rendered into a template — year 0 / absent year is falsy. -/
def yearStr (y? : Option Nat) : String :=
  match y? with
  | some y => if y = 0 then "" else toString y
  | none => ""

/-! ## Data model: the raw third-party payload and the internal contact shape -/

structure TimePeriodDate where
  month : Option Nat
  year : Option Nat
  deriving DecidableEq

structure TimePeriod where
  startDate : Option TimePeriodDate
  endDate : Option TimePeriodDate
  deriving DecidableEq

structure EmployeeCountRange where
  rangeStart : Nat
  rangeEnd : Nat
  deriving DecidableEq

structure CompanyInfo where
  name : Option String
  industries : List String
  employeeCountRange : Option EmployeeCountRange
  deriving DecidableEq

structure Position where
  title : Option String
  companyName : Option String
  company : Option CompanyInfo
  description : Option String
  locationName : Option String
  timePeriod : Option TimePeriod
  deriving DecidableEq

/-- Skills / courses / certifications entries are either plain strings or
name/title-bearing objects. -/
inductive SkillEntry where
  | str (s : String)
  | obj (name : Option String) (title : Option String)
  deriving DecidableEq

structure Education where
  degreeName : Option String
  fieldOfStudy : Option String
  schoolName : Option String
  timePeriod : Option TimePeriod
  deriving DecidableEq

/-- The loosely-structured third-party profile payload (fields that the
transformer reads). An absent array field is `none` / `[]`. -/
structure RawProfile where
  firstName : Option String := none
  lastName : Option String := none
  fullName : Option String := none
  jobTitle : Option String := none
  occupation : Option String := none
  companyName : Option String := none
  industryName : Option String := none
  geoLocationName : Option String := none
  geoCountryName : Option String := none
  phone : Option String := none
  email : Option String := none
  pictureUrl : Option String := none
  profilePicture : Option String := none
  inputUrl : Option String := none
  url : Option String := none
  linkedinUrl : Option String := none
  positions : List Position := []
  skills : Option (List SkillEntry) := none
  courses : Option (List SkillEntry) := none
  certifications : Option (List SkillEntry) := none
  educations : List Education := []
  deriving DecidableEq

/-- One validated element of the request's profilesData (url trimmed, phone and
email defaulted to the empty string, extraLinks filtered). -/
structure ProfileInput where
  url : String
  phone : String := ""
  email : String := ""
  extraLinks : List String := []
  deriving DecidableEq

/-- The normalized contact record returned by `transformLinkedInDataWithPhone`. -/
structure Contact where
  name : String
  jobTitle : String
  company : String
  location : String
  industry : String
  experience : Nat
  seniorityLevel : String
  skills : List String
  education : String
  workExperience : String
  email : String
  phone : String
  avatar : String
  uploadedBy : String
  companySize : String
  linkedinUrl : String
  extraLinks : List String
  deriving DecidableEq

/-! ## The normalizer (transformLinkedInDataWithPhone, linkedinScraper.js 237-444) -/

/-- Source expression `linkedInProfile.jobTitle || linkedInProfile.occupation ||
linkedInProfile.positions?.[0]?.title || ''` (line 392). -/
def effectiveJobTitle (p : RawProfile) : String :=
  strOr p.jobTitle (strOr p.occupation (strOr (p.positions.head?.bind Position.title) ""))

/-- The earliest truthy (non-zero) start year across all positions
(lines 375-383). -/
def minStartYear (ps : List Position) : Option Nat :=
  ps.foldl
    (fun acc pos =>
      match pos.timePeriod with
      | none => acc
      | some tp =>
        match tp.startDate with
        | none => acc
        | some sd =>
          match sd.year with
          | none => acc
          | some y =>
            if y = 0 then acc
            else
              match acc with
              | none => some y
              | some a => if y < a then some y else acc)
    none

/-- Source expression `Math.max(0, currentYear - earliestStartYear)`, 0 when no position carries
a start year (lines 372-389). Nat subtraction models the `Math.max(0, ·)`. -/
def experienceYearsOf (p : RawProfile) (currentYear : Nat) : Nat :=
  match minStartYear p.positions with
  | none => 0
  | some y => currentYear - y

/-- The seniority if-chain over the lowercased title (lines 393-406). -/
def seniorityLevelOf (jobTitle : String) (experienceYears : Nat) : String :=
  let titleLower := strToLower jobTitle
  if jsIncludes titleLower "ceo" || jsIncludes titleLower "cto" ||
      jsIncludes titleLower "cfo" || jsIncludes titleLower "chief" then "C-Level"
  else if jsIncludes titleLower "vp" || jsIncludes titleLower "vice president" then "VP"
  else if jsIncludes titleLower "director" || jsIncludes titleLower "manager" then "Director"
  else if jsIncludes titleLower "senior" || jsIncludes titleLower "lead" ||
      jsIncludes titleLower "principal" then "Senior"
  else if jsIncludes titleLower "junior" || decide (experienceYears < 2) then "Entry-level"
  else "Mid-level"

/-- Source expression `typeof skill === 'string' ? skill : skill.name || skill.title || ''`. -/
def coerceSkill : SkillEntry → String
  | .str s => s
  | .obj n t => strOr n (strOr t "")

/-- Skill assembly (lines 291-320): skills, then courses, then at most 10
certifications, blanks discarded, deduplicated, capped at 25. -/
def skillsOf (p : RawProfile) : List String :=
  let primarySkills :=
    ((p.skills.getD []).map coerceSkill).filter (fun s => jsTrim s ≠ "")
  let courseSkills :=
    ((p.courses.getD []).map coerceSkill).filter (fun s => jsTrim s ≠ "")
  let certificationSkills :=
    (((p.certifications.getD []).map coerceSkill).filter (fun s => jsTrim s ≠ "")).take 10
  (dedupFirst (primarySkills ++ courseSkills ++ certificationSkills)).take 25

/-- The `(start - end)` date-range fragment of a position (lines 256-275). -/
def dateRangeOf (tp? : Option TimePeriod) : String :=
  match tp? with
  | none => ""
  | some tp =>
    match tp.startDate with
    | none => ""
    | some sd =>
      let startMonth := monthStr sd.month
      let startYear := yearStr sd.year
      let startStr :=
        if startMonth ≠ "" ∧ startYear ≠ "" then startMonth ++ "/" ++ startYear else startYear
      let endStr :=
        match tp.endDate with
        | none => "Present"
        | some ed =>
          let endMonth := monthStr ed.month
          let endYear := yearStr ed.year
          if endMonth ≠ "" ∧ endYear ≠ "" then endMonth ++ "/" ++ endYear else endYear
      " (" ++ startStr ++ " - " ++ endStr ++ ")"

/-- One rendered position block (lines 249-287). -/
def positionText (pos : Position) : String :=
  let title := strOr pos.title ""
  let company := strOr pos.companyName (strOr (pos.company.bind CompanyInfo.name) "")
  let description := strOr pos.description ""
  let location := strOr pos.locationName ""
  let dateRange := dateRangeOf pos.timePeriod
  let t := title ++ " at " ++ company ++ dateRange
  let t := if location ≠ "" then t ++ " - " ++ location else t
  if description ≠ "" then t ++ "\n" ++ description else t

/-- Position blocks joined with the blank-line separator (line 288). -/
def workExperienceOf (p : RawProfile) : String :=
  String.intercalate "\n\n---\n\n" (p.positions.map positionText)

/-- One rendered education entry (lines 326-354). -/
def educationEntryText (edu : Education) : String :=
  let degree := strOr edu.degreeName ""
  let field := strOr edu.fieldOfStudy ""
  let school := strOr edu.schoolName ""
  let t :=
    if degree ≠ "" ∧ field ≠ "" then degree ++ " in " ++ field
    else if degree ≠ "" then degree
    else if field ≠ "" then field
    else ""
  let t := if school ≠ "" then (if t ≠ "" then t ++ " at " ++ school else school) else t
  match edu.timePeriod with
  | none => t
  | some tp =>
    let startS := yearStr (tp.startDate.bind TimePeriodDate.year)
    let endS := yearStr (tp.endDate.bind TimePeriodDate.year)
    if startS ≠ "" ∨ endS ≠ "" then
      let timeStr :=
        if startS ≠ "" ∧ endS ≠ "" then startS ++ "-" ++ endS
        else if startS ≠ "" then startS
        else endS
      t ++ " (" ++ timeStr ++ ")"
    else t

/-- Education entries, blanks discarded, joined with `"; "` (lines 324-358). -/
def educationOf (p : RawProfile) : String :=
  String.intercalate "; " ((p.educations.map educationEntryText).filter (fun s => jsTrim s ≠ ""))

/-- Industry with fallback to the first position's first company industry when
the payload industry is absent or the literal "Other" (lines 361-369). -/
def industryOf (p : RawProfile) : String :=
  let industry := strOr p.industryName "Other"
  if industry = "Other" then
    match p.positions.head? with
    | none => industry
    | some pos =>
      match pos.company with
      | none => industry
      | some c =>
        match c.industries.head? with
        | none => industry
        | some i => i
  else industry

/-- Company size rendered from the first position's employee count range
(lines 409-416). -/
def companySizeOf (p : RawProfile) : String :=
  match p.positions.head? with
  | none => ""
  | some pos =>
    match pos.company with
    | none => ""
    | some c =>
      match c.employeeCountRange with
      | none => ""
      | some r => toString r.rangeStart ++ "-" ++ toString r.rangeEnd ++ " employees"

/-- The fixed placeholder avatar URL (line 438). -/
def defaultAvatarUrl : String :=
  "https://images.pexels.com/photos/771742/pexels-photo-771742.jpeg?auto=compress&cs=tinysrgb&w=150&h=150&fit=crop"

/-- transformLinkedInDataWithPhone (lines 237-444).  `currentYear` stands for
`new Date().getFullYear()`.  The `!linkedInProfile` throw is modelled at the
call site (`processItem`), which performs the same null check first. -/
def transformLinkedInDataWithPhone (p : RawProfile) (userId : String)
    (input : ProfileInput) (currentYear : Nat) : Contact :=
  { name :=
      let n := jsTrim (strOr p.firstName "" ++ " " ++ strOr p.lastName "")
      if n = "" then strOr p.fullName "" else n
  , jobTitle := effectiveJobTitle p
  , company := strOr p.companyName (strOr (p.positions.head?.bind Position.companyName) "")
  , location :=
      strOr p.geoLocationName
        (strOr p.geoCountryName (strOr (p.positions.head?.bind Position.locationName) ""))
  , industry := industryOf p
  , experience := experienceYearsOf p currentYear
  , seniorityLevel := seniorityLevelOf (effectiveJobTitle p) (experienceYearsOf p currentYear)
  , skills := skillsOf p
  , education := educationOf p
  , workExperience := workExperienceOf p
  , email := if input.email ≠ "" then input.email else strOr p.email ""
  , phone := if input.phone ≠ "" then input.phone else strOr p.phone ""
  , avatar := strOr p.pictureUrl (strOr p.profilePicture defaultAvatarUrl)
  , uploadedBy := userId
  , companySize := companySizeOf p
  , linkedinUrl := strOr p.inputUrl (strOr p.url (strOr p.linkedinUrl input.url))
  , extraLinks := input.extraLinks }

/-! ## The scrape orchestrator (POST /scrape-linkedin, linkedinScraper.js 6-234) -/

/-- Outcome of the internal save call (`POST /profiles`, lines 153-164). -/
inductive SaveOutcome where
  | ok
  | failed (msg : String)

/-- The summary echoed in a per-item success (lines 172-177). -/
structure ContactSummary where
  name : String
  jobTitle : String
  company : String
  phone : String
  deriving DecidableEq

/-- One entry of `results.results` (lines 169-189). -/
structure ItemResult where
  url : String
  success : Bool
  error : Option String
  data : Option ContactSummary
  deriving DecidableEq

/-- The mutable `results` accumulator (lines 48-54). -/
structure BatchResults where
  total : Nat
  processed : Nat
  successful : Nat
  failed : Nat
  results : List ItemResult
  deriving DecidableEq

/-- The error message of the insufficient-data throw (line 149). -/
def insufficientMsg : String :=
  "Insufficient profile data - profile must have a name and either experience, company, or job title"

def summaryOf (c : Contact) : ContactSummary :=
  { name := c.name, jobTitle := c.jobTitle, company := c.company, phone := c.phone }

/-- The per-item try block (lines 125-190): missing scraped datum throws,
otherwise normalize, test `hasMinimumData`, and only then call the save
endpoint.  The second component records whether a persistence call was made. -/
def processItem (input : ProfileInput) (pd? : Option RawProfile) (userId : String)
    (currentYear : Nat) (save : Contact → SaveOutcome) : ItemResult × Bool :=
  match pd? with
  | none =>
    ({ url := input.url, success := false, error := some "No profile data received",
       data := none }, false)
  | some pd =>
    let c := transformLinkedInDataWithPhone pd userId input currentYear
    if c.name ≠ "" ∧ (0 < c.experience ∨ c.company ≠ "" ∨ c.jobTitle ≠ "") then
      match save c with
      | .ok =>
        ({ url := input.url, success := true, error := none, data := some (summaryOf c) }, true)
      | .failed msg =>
        ({ url := input.url, success := false, error := some msg, data := none }, true)
    else
      ({ url := input.url, success := false, error := some insufficientMsg, data := none }, false)

/-- Source line `results.processed++` plus the success/failure bookkeeping and push. -/
def recordItem (r : BatchResults) (item : ItemResult) : BatchResults :=
  { r with
    processed := r.processed + 1
    successful := r.successful + (if item.success then 1 else 0)
    failed := r.failed + (if item.success then 0 else 1)
    results := r.results ++ [item] }

/-- The uniform per-item failure pushed by the catch block (lines 197-205). -/
def serviceFailedItem (url : String) : ItemResult :=
  { url := url, success := false, error := some "LinkedIn scraping service failed", data := none }

def emptyBatchResults (total : Nat) : BatchResults :=
  { total := total, processed := 0, successful := 0, failed := 0, results := [] }

/-- The catch block of the scraping stage (lines 193-206): mark every
validated input failed with the uniform reason. -/
def failLoop (inputs : List ProfileInput) : BatchResults :=
  inputs.foldl (fun r inp => recordItem r (serviceFailedItem inp.url))
    (emptyBatchResults inputs.length)

/-- The processing loop (lines 121-191): input i is positionally paired with
`scrapedData[i]`; the second component counts persistence calls. -/
def processLoop (inputs : List ProfileInput) (data : List (Option RawProfile))
    (userId : String) (currentYear : Nat) (save : Contact → SaveOutcome) :
    BatchResults × Nat :=
  inputs.enum.foldl
    (fun acc x =>
      let pr := processItem x.2 ((data.get? x.1).join) userId currentYear save
      (recordItem acc.1 pr.1, acc.2 + (if pr.2 then 1 else 0)))
    (emptyBatchResults inputs.length, 0)

/-- The polling loop (lines 85-103): `while (runStatus === 'RUNNING' &&
attempts < 60)`, one status request per iteration (`none` models a non-ok
status response, which throws).  The fuel argument equals `60 - attempts`. -/
def pollAux (statusAt : Nat → Option String) : Nat → String → Nat → Option String
  | 0, st, _ => some st
  | fuel + 1, st, attempts =>
    if st = "RUNNING" ∧ attempts < 60 then
      match statusAt attempts with
      | none => none
      | some s => pollAux statusAt fuel s (attempts + 1)
    else some st

/-- The status the loop exits with (`none` = a status request failed). -/
def pollFinalStatus (statusAt : Nat → Option String) : Option String :=
  pollAux statusAt 60 "RUNNING" 0

/-- Abstracted behaviour of the external service and the save endpoint for one
request: whether the run submission succeeds, the status returned by each
polling attempt, whether the dataset fetch succeeds, the fetched items, and
the outcome of each internal save call. -/
structure ScrapeEnv where
  submitOk : Bool
  statusAt : Nat → Option String
  fetchOk : Bool
  scrapedData : List (Option RawProfile)
  save : Contact → SaveOutcome

/-- Result of the submission/polling/fetch stage (the inner try, lines 58-118):
either the scraped items, or the thrown error caught at line 193. -/
inductive StageResult where
  | ok (data : List (Option RawProfile))
  | failed
  deriving DecidableEq

/-- Lines 58-118: submit, poll until a non-RUNNING status or 60 attempts,
require `SUCCEEDED`, then fetch the dataset items. -/
def runStage (env : ScrapeEnv) : StageResult :=
  if env.submitOk then
    match pollFinalStatus env.statusAt with
    | none => .failed
    | some st =>
      if st = "SUCCEEDED" then
        if env.fetchOk then .ok env.scrapedData else .failed
      else .failed
  else .failed

/-- The whole try/catch around the scraping stage plus the per-item loop
(lines 58-206), returning the results accumulator and the number of
persistence calls made. -/
def runBatch (inputs : List ProfileInput) (env : ScrapeEnv) (userId : String)
    (currentYear : Nat) : BatchResults × Nat :=
  match runStage env with
  | .failed => (failLoop inputs, 0)
  | .ok data => processLoop inputs data userId currentYear env.save

/-- The JSON body of the HTTP 200 response (lines 221-225). -/
structure ScrapeResponse where
  success : Bool
  results : BatchResults
  pointsEarned : Nat
  deriving DecidableEq

/-- Per-user dashboard/ledger record (models/Dashboard as used by the routes). -/
structure Dashboard where
  userId : String
  availablePoints : Nat
  totalContacts : Nat
  unlockedProfiles : Nat
  myUploads : Nat
  uploadedProfileIds : List String
  unlockedContactIds : List String
  recentActivity : List String
  deriving DecidableEq

/-- The endpoint after validation (lines 48-233): run the batch, then the
points section (lines 208-218) — which only logs, so the ledger state is
threaded through unchanged — and finally the 200 response with
`pointsEarned = successful * 10`.  Returns (response, save calls, ledger). -/
def scrapeHandler (inputs : List ProfileInput) (env : ScrapeEnv) (userId : String)
    (currentYear : Nat) (ledger : List Dashboard) :
    ScrapeResponse × Nat × List Dashboard :=
  let rb := runBatch inputs env userId currentYear
  ({ success := true, results := rb.1, pointsEarned := rb.1.successful * 10 }, rb.2, ledger)

/-! ## Dashboard routes (dashboardRoutes in linkedinScraper.js part 2) -/

/-- The defaults a dashboard is created with on first access (lines 461-472). -/
def defaultDashboard (userId : String) : Dashboard :=
  { userId := userId
    availablePoints := 100
    totalContacts := 0
    unlockedProfiles := 0
    myUploads := 0
    uploadedProfileIds := []
    unlockedContactIds := []
    recentActivity := ["Welcome! Dashboard created."] }

/-- Source call `Profile.countDocuments({ uploadedBy: userId })`. -/
def uploadsCount (profiles : List Contact) (userId : String) : Nat :=
  (profiles.filter (fun p => p.uploadedBy = userId)).length

/-- Result of the protected GET / handler for one user. -/
structure FetchResult where
  returned : Dashboard
  stored : Dashboard
  saved : Bool
  deriving DecidableEq

/-- GET / (lines 454-491): find-or-create, recompute the upload and unlocked
counts, and persist corrections only when `myUploads` or `unlockedProfiles`
differ from the recomputed values. -/
def dashboardFetch (d? : Option Dashboard) (profiles : List Contact)
    (userId : String) : FetchResult :=
  let d := match d? with
    | some d => d
    | none => defaultDashboard userId
  let actualUploads := uploadsCount profiles userId
  let actualUnlockedCount := d.unlockedContactIds.length
  if d.myUploads ≠ actualUploads ∨ d.unlockedProfiles ≠ actualUnlockedCount then
    let d' := { d with
      myUploads := actualUploads
      unlockedProfiles := actualUnlockedCount
      totalContacts := actualUploads }
    { returned := d', stored := d', saved := true }
  else
    { returned := d, stored := d, saved := false }

/-- PATCH /activity (lines 596-608): `$push { recentActivity: { $each:
[activity], $slice: -20 } }` — append one entry and keep the last 20. -/
def appendActivity (log : List String) (activity : String) : List String :=
  lastN 20 (log ++ [activity])

/-! ## The two LinkedIn-id extractors -/

/-- The character class `[\w\-%.0-9]` of the helper regex (JS `\w` is
`[A-Za-z0-9_]`). -/
def classChar (c : Char) : Bool :=
  c.isAlphanum || c = '_' || c = '-' || c = '%' || c = '.'

/-- The literal part of both regexes. -/
def litChars : List Char := "linkedin.com/in/".toList

/-- Case-insensitive (`/i`, ASCII folding) prefix test against an
already-lowercase pattern. -/
def ciStartsWith : List Char → List Char → Bool
  | [], _ => true
  | _ :: _, [] => false
  | p :: ps, c :: cs => (Char.toLower c = p) && ciStartsWith ps cs

/-- Whether `/linkedin\.com\/in\/([\w\-%.0-9]+)(?:[/?]|$)/i` matches at the
start of `cs`, and the captured group when it does.  At a fixed position the
greedy group can only succeed on the maximal class run, because backtracking
would leave a class character — never `/`, `?`, or end-of-string — adjacent. -/
def matchFrom (cs : List Char) : Option (List Char) :=
  if ciStartsWith litChars cs then
    if ((cs.drop litChars.length).takeWhile classChar).isEmpty then none
    else
      match (cs.drop litChars.length).dropWhile classChar with
      | [] => some ((cs.drop litChars.length).takeWhile classChar)
      | c :: _ =>
        if c = '/' || c = '?' then some ((cs.drop litChars.length).takeWhile classChar)
        else none
  else none

/-- JS `String.prototype.match` semantics: return the first position (scanning
left to right) where the whole pattern matches. -/
def scanWith (f : List Char → Option (List Char)) : List Char → Option (List Char)
  | [] => none
  | c :: cs =>
    match f (c :: cs) with
    | some r => some r
    | none => scanWith f cs

/-- linkedinHelper.js `extractLinkedInId` (src/unnamed/part_000, lines 3-10):
`if (!url) return null` then the case-insensitive match, lowercasing the
captured group. -/
def extractLinkedInId (url? : Option String) : Option String :=
  match url? with
  | none => none
  | some url =>
    if url = "" then none
    else
      match scanWith matchFrom url.toList with
      | some run => some (String.mk (run.map Char.toLower))
      | none => none

/-- The `[^/?]` class of the Profile-model regex. -/
def idChar (c : Char) : Bool := !(c = '/' || c = '?')

/-- Whether `/linkedin\.com\/in\/([^/?]+)/` (case-sensitive, no terminator
requirement) matches at the start of `cs`, and its captured group. -/
def profileMatchFrom (cs : List Char) : Option (List Char) :=
  if litChars.isPrefixOf cs then
    if ((cs.drop litChars.length).takeWhile idChar).isEmpty then none
    else some ((cs.drop litChars.length).takeWhile idChar)
  else none

/-- server.js `extractLinkedInId` (lines 231-236), used by the Profile
pre-save hook to set `linkedinId`. -/
def profileExtractLinkedInId (url? : Option String) : Option String :=
  match url? with
  | none => none
  | some url =>
    if url = "" then none
    else
      match scanWith profileMatchFrom url.toList with
      | some run => some (String.mk (run.map Char.toLower))
      | none => none

/-! ## Specification-side definitions, written from the spec's words -/

/-- Spec 3/4.1: "the run of word characters, hyphens, percent-signs, dots,
and digits". -/
def specTokenChar (c : Char) : Bool :=
  c.isAlphanum || c = '_' || c = '-' || c = '%' || c = '.'

/-- Spec 4.1: the captured run must be followed by `/`, `?`, or end-of-string. -/
def specTerminatorOk : List Char → Bool
  | [] => true
  | c :: _ => c = '/' || c = '?'

/-- Spec 4.1 read at one position: the suffix starts with `linkedin.com/in/`
(case-insensitively) followed by a non-empty token run followed by `/`, `?`,
or end-of-string. -/
def specMatchSuffix (cs : List Char) : Bool :=
  ciStartsWith litChars cs &&
    (!((cs.drop litChars.length).takeWhile specTokenChar).isEmpty &&
      specTerminatorOk ((cs.drop litChars.length).dropWhile specTokenChar))

/-- The token the spec says is captured at that position. -/
def specTokenSuffix (cs : List Char) : List Char :=
  (cs.drop litChars.length).takeWhile specTokenChar

/-- Spec (C2): "the effective job title (payload jobTitle, else occupation,
else first position's title)". -/
def c2EffectiveTitle (p : RawProfile) : String :=
  strOr p.jobTitle (strOr p.occupation (strOr (p.positions.head?.bind Position.title) ""))

/-- Case-insensitive keyword containment, as the spec describes the matching. -/
def c2ContainsCI (t kw : String) : Bool := jsIncludes (strToLower t) kw

/-- Spec (C2): the seniority precedence order, first matching rule wins. -/
def c2Seniority (t : String) (expYears : Nat) : String :=
  if c2ContainsCI t "ceo" || c2ContainsCI t "cto" || c2ContainsCI t "cfo" ||
      c2ContainsCI t "chief" then "C-Level"
  else if c2ContainsCI t "vp" || c2ContainsCI t "vice president" then "VP"
  else if c2ContainsCI t "director" || c2ContainsCI t "manager" then "Director"
  else if c2ContainsCI t "senior" || c2ContainsCI t "lead" || c2ContainsCI t "principal" then
    "Senior"
  else if c2ContainsCI t "junior" || decide (expYears < 2) then "Entry-level"
  else "Mid-level"

/-- Spec (C4): a source's contribution — each entry taken as-is when a string,
else its name or title field, blank entries discarded. -/
def c4SourceNames (entries : Option (List SkillEntry)) : List String :=
  ((entries.getD []).map
      (fun e => match e with
        | .str s => s
        | .obj n t => strOr n (strOr t ""))).filter
    (fun s => jsTrim s ≠ "")

/-- Spec (C4): skills entries, then course names, then at most 10
certification names, deduplicated keeping first occurrences, capped at 25. -/
def c4SkillsSpec (p : RawProfile) : List String :=
  (dedupFirst
      (c4SourceNames p.skills ++ c4SourceNames p.courses ++
        (c4SourceNames p.certifications).take 10)).take 25

/-! ## Concrete inputs used by witnesses and counterexamples -/

/-- A minimal validated input descriptor. -/
def inputPlain : ProfileInput := { url := "https://linkedin.com/in/someone" }

/-- Payload whose title contains "Senior" but also the higher-precedence
keyword "Manager". -/
def rawSeniorManager : RawProfile := { jobTitle := some "Senior Manager" }

/-- Payload whose title contains "Senior" and no higher-precedence keyword. -/
def rawSeniorEngineer : RawProfile := { jobTitle := some "Senior Engineer" }

/-- Payload with a name but no experience, company, or job title. -/
def rawNameOnly : RawProfile := { firstName := some "Jane", lastName := some "Roe" }

/-- Environment whose polling attempts all report RUNNING (the poll loop
exhausts its 60 attempts and exits with a non-SUCCEEDED status). -/
def envAllRunning : ScrapeEnv :=
  { submitOk := true
    statusAt := fun _ => some "RUNNING"
    fetchOk := true
    scrapedData := []
    save := fun _ => .ok }

/-- Two validated inputs for the stage-failure witness. -/
def inputsTwo : List ProfileInput :=
  [{ url := "https://linkedin.com/in/a" }, { url := "https://linkedin.com/in/b" }]

/-- A stored dashboard whose only stale counter is `totalContacts`. -/
def dashStaleTotal : Dashboard :=
  { userId := "u1"
    availablePoints := 100
    totalContacts := 5
    unlockedProfiles := 0
    myUploads := 0
    uploadedProfileIds := []
    unlockedContactIds := []
    recentActivity := [] }

/-- A stored dashboard whose `myUploads` has drifted. -/
def dashDriftUploads : Dashboard :=
  { userId := "u2"
    availablePoints := 100
    totalContacts := 7
    unlockedProfiles := 0
    myUploads := 3
    uploadedProfileIds := []
    unlockedContactIds := ["p9"]
    recentActivity := [] }

/-! ## Helper lemmas -/

theorem length_lastN_le (n : Nat) (l : List String) : (lastN n l).length ≤ n := by
  simp only [lastN, List.length_drop]
  omega

theorem lastN_of_le (n : Nat) (l : List String) (h : l.length ≤ n) : lastN n l = l := by
  simp [lastN, Nat.sub_eq_zero_of_le h]

theorem lastN_append_lastN (n : Nat) (l t : List String) :
    lastN n (lastN n l ++ t) = lastN n (l ++ t) := by
  rcases Nat.le_total l.length n with h | h
  · rw [lastN_of_le n l h]
  · have hda : List.drop (l.length - n) (l ++ t) = List.drop (l.length - n) l ++ t :=
      List.drop_append_of_le_length (Nat.sub_le _ _)
    unfold lastN
    simp only [List.length_append, List.length_drop]
    have e1 : l.length - (l.length - n) + t.length - n = t.length := by omega
    rw [e1, ← hda, List.drop_drop]
    congr 1
    omega

/-! ## Claim theorems -/

/-- C7: for every dashboard activity log of at most 20 entries and every
sequence of append-activity operations, the resulting stored log is exactly
the suffix of the last 20 of the old log followed by the appended messages —
each append pushes one string, at most the 20 most recent entries survive,
and the surviving entries keep their oldest-first insertion order. -/
theorem activity_log_keeps_last20 (start msgs : List String) (h : start.length ≤ 20) :
    msgs.foldl appendActivity start = lastN 20 (start ++ msgs) := by
  induction msgs generalizing start with
  | nil => simp [lastN, Nat.sub_eq_zero_of_le h]
  | cons a msgs ih =>
    have hlen : (appendActivity start a).length ≤ 20 := length_lastN_le _ _
    calc (a :: msgs).foldl appendActivity start
        = msgs.foldl appendActivity (appendActivity start a) := rfl
      _ = lastN 20 (appendActivity start a ++ msgs) := ih _ hlen
      _ = lastN 20 ((start ++ [a]) ++ msgs) := by
          rw [appendActivity, lastN_append_lastN]
      _ = lastN 20 (start ++ a :: msgs) := by rw [List.append_assoc]; rfl

/-- Witness for C7: appending 25 sequential messages to a fresh log retains
exactly the last 20, in order. -/
theorem activity_log_25_witness :
    ((List.range 25).map toString).foldl appendActivity [] =
      ((List.range 25).map toString).drop 5 := by
  rw [activity_log_keeps_last20 [] ((List.range 25).map toString) (by decide)]
  rfl

/-- C8 (amended): after every dashboard fetch-on-read, the stored dashboard
satisfies `myUploads = uploadsCount` and `unlockedProfiles =
unlockedContactIds.length`; a corrective save is issued exactly when the
stored `myUploads` or `unlockedProfiles` differed from the recomputed values,
and only such a save also resets `totalContacts` to the upload count (a
dashboard whose only stale counter is `totalContacts` is left unchanged). -/
theorem dashboard_fetch_reconciles_uploads_and_unlocked
    (d? : Option Dashboard) (profiles : List Contact) (userId : String) :
    (dashboardFetch d? profiles userId).stored.myUploads = uploadsCount profiles userId ∧
    (dashboardFetch d? profiles userId).stored.unlockedProfiles =
      (dashboardFetch d? profiles userId).stored.unlockedContactIds.length ∧
    ((dashboardFetch d? profiles userId).saved = true ↔
      ((d?.getD (defaultDashboard userId)).myUploads ≠ uploadsCount profiles userId ∨
        (d?.getD (defaultDashboard userId)).unlockedProfiles ≠
          (d?.getD (defaultDashboard userId)).unlockedContactIds.length)) ∧
    ((dashboardFetch d? profiles userId).saved = true →
      (dashboardFetch d? profiles userId).stored.totalContacts =
        uploadsCount profiles userId) := by
  rcases d? with _ | d <;>
    · simp only [dashboardFetch, Option.getD]
      split
      next hcond => simp_all
      next hcond =>
        push_neg at hcond
        simp_all

/-- Witness for C8: a dashboard whose `myUploads` drifted to 3 while the user
has 0 uploaded profiles is corrected and persisted. -/
theorem dashboard_fetch_witness :
    (dashboardFetch (some dashDriftUploads) [] "u2").saved = true ∧
    (dashboardFetch (some dashDriftUploads) [] "u2").stored.myUploads = 0 ∧
    (dashboardFetch (some dashDriftUploads) [] "u2").stored.totalContacts = 0 := by
  have h := dashboard_fetch_reconciles_uploads_and_unlocked (some dashDriftUploads) [] "u2"
  have hs : (dashboardFetch (some dashDriftUploads) [] "u2").saved = true :=
    h.2.2.1.mpr (by decide)
  exact ⟨hs, h.1, h.2.2.2 hs⟩

/-- Counterexample to C8 as stated: a stored dashboard with `totalContacts =
5` but correct `myUploads = 0` and `unlockedProfiles = 0` passes the guard
untouched, so after the fetch the stored `totalContacts` still differs from
the recomputed upload count (0). -/
theorem stale_totalContacts_not_reconciled :
    (dashboardFetch (some dashStaleTotal) [] "u1").stored.totalContacts = 5 ∧
    uploadsCount [] "u1" = 0 ∧
    (dashboardFetch (some dashStaleTotal) [] "u1").saved = false := by
  decide

/-- C9: the scrape endpoint reports `pointsEarned = 10 *` (number of
successful items) while leaving the dashboard/ledger state untouched — the
points section (lines 208-218) only logs, so no ledger field changes. -/
theorem scrape_reports_points_without_ledger_write
    (inputs : List ProfileInput) (env : ScrapeEnv) (userId : String) (currentYear : Nat)
    (ledger : List Dashboard) :
    (scrapeHandler inputs env userId currentYear ledger).2.2 = ledger ∧
    (scrapeHandler inputs env userId currentYear ledger).1.pointsEarned =
      10 * (scrapeHandler inputs env userId currentYear ledger).1.results.successful := by
  exact ⟨rfl, Nat.mul_comm _ _⟩

/-- C2: the normalizer derives `seniorityLevel` from the effective job title
(payload jobTitle, else occupation, else first position's title) by
case-insensitive substring matching in exactly the spec's precedence order,
with "junior"-or-(experience < 2) as the Entry-level rule and Mid-level as the
default. -/
theorem seniorityLevel_follows_spec_precedence (p : RawProfile) (userId : String)
    (input : ProfileInput) (currentYear : Nat) :
    (transformLinkedInDataWithPhone p userId input currentYear).seniorityLevel =
      c2Seniority (c2EffectiveTitle p)
        ((transformLinkedInDataWithPhone p userId input currentYear).experience) := rfl

/-- Counterexample to C3 as stated: a payload whose effective title is
"Senior Manager" contains "senior" (case-insensitively), yet the normalizer
assigns "Director", because the director/manager rule has higher precedence. -/
theorem seniorManagerTitle_not_senior :
    jsIncludes (strToLower (effectiveJobTitle rawSeniorManager)) "senior" = true ∧
    (transformLinkedInDataWithPhone rawSeniorManager "u" inputPlain 2025).seniorityLevel ≠
      "Senior" ∧
    (transformLinkedInDataWithPhone rawSeniorManager "u" inputPlain 2025).seniorityLevel =
      "Director" := by
  decide

/-- C3 (amended): a payload whose effective job title contains "Senior"
(case-insensitively) and none of the higher-precedence keywords
(ceo/cto/cfo/chief/vp/vice president/director/manager) is assigned
seniorityLevel = "Senior", regardless of the computed experience years. -/
theorem senior_title_without_higher_keyword_gives_senior
    (p : RawProfile) (userId : String) (input : ProfileInput) (currentYear : Nat)
    (hsen : jsIncludes (strToLower (effectiveJobTitle p)) "senior" = true)
    (h1 : jsIncludes (strToLower (effectiveJobTitle p)) "ceo" = false)
    (h2 : jsIncludes (strToLower (effectiveJobTitle p)) "cto" = false)
    (h3 : jsIncludes (strToLower (effectiveJobTitle p)) "cfo" = false)
    (h4 : jsIncludes (strToLower (effectiveJobTitle p)) "chief" = false)
    (h5 : jsIncludes (strToLower (effectiveJobTitle p)) "vp" = false)
    (h6 : jsIncludes (strToLower (effectiveJobTitle p)) "vice president" = false)
    (h7 : jsIncludes (strToLower (effectiveJobTitle p)) "director" = false)
    (h8 : jsIncludes (strToLower (effectiveJobTitle p)) "manager" = false) :
    (transformLinkedInDataWithPhone p userId input currentYear).seniorityLevel = "Senior" := by
  show seniorityLevelOf (effectiveJobTitle p) (experienceYearsOf p currentYear) = "Senior"
  unfold seniorityLevelOf
  simp [hsen, h1, h2, h3, h4, h5, h6, h7, h8]

/-- Witness for the amended C3 at the concrete title "Senior Engineer". -/
theorem senior_title_witness :
    (transformLinkedInDataWithPhone rawSeniorEngineer "u" inputPlain 2025).seniorityLevel =
      "Senior" :=
  senior_title_without_higher_keyword_gives_senior rawSeniorEngineer "u" inputPlain 2025
    (by decide) (by decide) (by decide) (by decide) (by decide) (by decide) (by decide)
    (by decide) (by decide)

/-- C5: an item with scraped data is sent to the persistence endpoint exactly
when the normalized record has a non-empty name and at least one of
experience > 0, a non-empty company, or a non-empty job title; otherwise the
item is recorded as a per-item failure with the insufficient-data reason and
no persistence call is made. -/
theorem persistence_acceptance_iff_minimum_data
    (input : ProfileInput) (pd : RawProfile) (userId : String) (currentYear : Nat)
    (save : Contact → SaveOutcome) :
    ((processItem input (some pd) userId currentYear save).2 = true ↔
      ((transformLinkedInDataWithPhone pd userId input currentYear).name ≠ "" ∧
        (0 < (transformLinkedInDataWithPhone pd userId input currentYear).experience ∨
          (transformLinkedInDataWithPhone pd userId input currentYear).company ≠ "" ∨
          (transformLinkedInDataWithPhone pd userId input currentYear).jobTitle ≠ ""))) ∧
    (¬((transformLinkedInDataWithPhone pd userId input currentYear).name ≠ "" ∧
        (0 < (transformLinkedInDataWithPhone pd userId input currentYear).experience ∨
          (transformLinkedInDataWithPhone pd userId input currentYear).company ≠ "" ∨
          (transformLinkedInDataWithPhone pd userId input currentYear).jobTitle ≠ "")) →
      (processItem input (some pd) userId currentYear save).1.success = false ∧
      (processItem input (some pd) userId currentYear save).1.error = some insufficientMsg ∧
      (processItem input (some pd) userId currentYear save).2 = false) := by
  by_cases hmin :
      (transformLinkedInDataWithPhone pd userId input currentYear).name ≠ "" ∧
        (0 < (transformLinkedInDataWithPhone pd userId input currentYear).experience ∨
          (transformLinkedInDataWithPhone pd userId input currentYear).company ≠ "" ∨
          (transformLinkedInDataWithPhone pd userId input currentYear).jobTitle ≠ "")
  · refine ⟨⟨fun _ => hmin, fun _ => ?_⟩, fun hn => absurd hmin hn⟩
    simp only [processItem, if_pos hmin]
    cases save (transformLinkedInDataWithPhone pd userId input currentYear) <;> rfl
  · refine ⟨⟨fun ht => ?_, fun hp => absurd hp hmin⟩, fun _ => ?_⟩
    · exfalso
      simp only [processItem, if_neg hmin] at ht
      exact Bool.false_ne_true ht
    · simp [processItem, if_neg hmin]

theorem dedupFirst_aux_nodup (l : List String) :
    ∀ acc : List String, acc.Nodup →
      (l.foldl (fun acc s => if acc.contains s then acc else acc ++ [s]) acc).Nodup := by
  induction l with
  | nil => intro acc h; exact h
  | cons s l ih =>
    intro acc h
    simp only [List.foldl_cons]
    by_cases hc : acc.contains s = true
    · simp only [hc, if_true]
      exact ih acc h
    · simp only [hc, if_false]
      refine ih (acc ++ [s]) ?_
      have hmem : s ∉ acc := by simpa [List.contains] using hc
      simp [List.nodup_append, h, hmem]

theorem dedupFirst_nodup (l : List String) : (dedupFirst l).Nodup :=
  dedupFirst_aux_nodup l [] List.nodup_nil

theorem dedupFirst_aux_sublist (l : List String) :
    ∀ acc : List String,
      ∃ t, l.foldl (fun acc s => if acc.contains s then acc else acc ++ [s]) acc = acc ++ t ∧
        t.Sublist l := by
  induction l with
  | nil => intro acc; exact ⟨[], by simp, List.nil_sublist _⟩
  | cons s l ih =>
    intro acc
    simp only [List.foldl_cons]
    by_cases hc : acc.contains s = true
    · obtain ⟨t, ht, hs⟩ := ih acc
      rw [if_pos hc]
      exact ⟨t, ht, List.sublist_cons_of_sublist s hs⟩
    · obtain ⟨t, ht, hs⟩ := ih (acc ++ [s])
      rw [if_neg hc]
      refine ⟨s :: t, ?_, List.Sublist.cons₂ s hs⟩
      rw [ht, List.append_assoc]
      rfl

/-- The deduplication pass yields a sublist (first occurrences, in order). -/
theorem dedupFirst_sublist (l : List String) : (dedupFirst l).Sublist l := by
  obtain ⟨t, ht, hs⟩ := dedupFirst_aux_sublist l []
  unfold dedupFirst
  rw [ht, List.nil_append]
  exact hs

/-- C4: the normalizer's skills list is exactly the spec pipeline — explicit
skills entries, then course names, then at most 10 certification names (each
coerced from a string or its name/title field, blanks discarded), deduplicated
keeping first occurrences in order, and capped at 25 — and consequently it is
duplicate-free, at most 25 long, and an in-order selection of the
concatenated sources. -/
theorem skills_pipeline_matches_spec (p : RawProfile) (userId : String)
    (input : ProfileInput) (currentYear : Nat) :
    (transformLinkedInDataWithPhone p userId input currentYear).skills = c4SkillsSpec p ∧
    (transformLinkedInDataWithPhone p userId input currentYear).skills.Nodup ∧
    (transformLinkedInDataWithPhone p userId input currentYear).skills.length ≤ 25 ∧
    (transformLinkedInDataWithPhone p userId input currentYear).skills.Sublist
      (c4SourceNames p.skills ++ c4SourceNames p.courses ++
        (c4SourceNames p.certifications).take 10) := by
  have he : (transformLinkedInDataWithPhone p userId input currentYear).skills =
      c4SkillsSpec p := rfl
  refine ⟨he, ?_, ?_, ?_⟩
  · rw [he]
    exact (List.take_sublist _ _).nodup (dedupFirst_nodup _)
  · rw [he]
    exact le_trans (le_of_eq (List.length_take _ _)) (min_le_left _ _)
  · rw [he]
    exact (List.take_sublist _ _).trans (dedupFirst_sublist _)

theorem foldl_recordItem_failures (inputs : List ProfileInput) :
    ∀ r : BatchResults,
      inputs.foldl (fun r inp => recordItem r (serviceFailedItem inp.url)) r =
        { total := r.total, processed := r.processed + inputs.length,
          successful := r.successful, failed := r.failed + inputs.length,
          results := r.results ++ inputs.map (fun inp => serviceFailedItem inp.url) } := by
  induction inputs with
  | nil => intro r; simp
  | cons i l ih =>
    intro r
    simp only [List.foldl_cons, List.map_cons]
    rw [ih]
    have h1 : r.processed + 1 + l.length = r.processed + (l.length + 1) := by omega
    have h2 : r.failed + 1 + l.length = r.failed + (l.length + 1) := by omega
    simp [recordItem, serviceFailedItem, h1, h2, List.append_assoc]

theorem pollAux_all_running (statusAt : Nat → Option String)
    (h : ∀ i, i < 60 → statusAt i = some "RUNNING") :
    ∀ fuel attempts, fuel + attempts = 60 →
      pollAux statusAt fuel "RUNNING" attempts = some "RUNNING" := by
  intro fuel
  induction fuel with
  | zero => intro attempts _; rfl
  | succ fuel ih =>
    intro attempts heq
    have ha : attempts < 60 := by omega
    simp only [pollAux]
    rw [if_pos (show True ∧ attempts < 60 from ⟨trivial, ha⟩)]
    rw [h attempts ha]
    exact ih (attempts + 1) (by omega)

/-- C6: whenever the submission/polling/fetch stage fails — in particular when
all 60 polling attempts still report RUNNING, or the loop exits with any
non-SUCCEEDED status — every validated input is marked failed with the uniform
reason "LinkedIn scraping service failed", no persistence call is made, and
the endpoint still returns the success-shaped (HTTP 200) counts object with
`success = true` and `pointsEarned = 0` instead of propagating an error. -/
theorem stage_failure_marks_all_failed (inputs : List ProfileInput) (env : ScrapeEnv)
    (userId : String) (currentYear : Nat) (ledger : List Dashboard) :
    ((∀ i, i < 60 → env.statusAt i = some "RUNNING") → runStage env = .failed) ∧
    (∀ st, pollFinalStatus env.statusAt = some st → st ≠ "SUCCEEDED" →
      runStage env = .failed) ∧
    (runStage env = .failed →
      scrapeHandler inputs env userId currentYear ledger =
        ({ success := true
           results :=
             { total := inputs.length, processed := inputs.length, successful := 0,
               failed := inputs.length,
               results := inputs.map (fun inp =>
                 { url := inp.url, success := false,
                   error := some "LinkedIn scraping service failed", data := none }) }
           pointsEarned := 0 }, 0, ledger)) := by
  refine ⟨?_, ?_, ?_⟩
  · intro h
    have hp : pollFinalStatus env.statusAt = some "RUNNING" :=
      pollAux_all_running env.statusAt h 60 0 rfl
    by_cases hsub : env.submitOk <;> simp [runStage, hsub, hp]
  · intro st hst hne
    by_cases hsub : env.submitOk <;> simp [runStage, hsub, hst, hne]
  · intro hf
    simp only [scrapeHandler, runBatch, hf, failLoop]
    rw [foldl_recordItem_failures]
    simp [emptyBatchResults, serviceFailedItem]

/-- Witness for C6: with every polling attempt reporting RUNNING, a 2-item
batch returns the all-failed, zero-saves, success-shaped response. -/
theorem stage_failure_witness :
    runStage envAllRunning = .failed ∧
    scrapeHandler inputsTwo envAllRunning "u" 2025 [] =
      ({ success := true
         results :=
           { total := 2, processed := 2, successful := 0, failed := 2,
             results :=
               [{ url := "https://linkedin.com/in/a", success := false,
                  error := some "LinkedIn scraping service failed", data := none },
                { url := "https://linkedin.com/in/b", success := false,
                  error := some "LinkedIn scraping service failed", data := none }] }
         pointsEarned := 0 }, 0, []) := by
  have h := stage_failure_marks_all_failed inputsTwo envAllRunning "u" 2025 []
  have hf : runStage envAllRunning = .failed := h.1 (fun i _ => rfl)
  refine ⟨hf, ?_⟩
  rw [h.2.2 hf]
  rfl

theorem matchFrom_nil : matchFrom [] = none := by decide

theorem profileMatchFrom_nil : profileMatchFrom [] = none := by decide

/-- The scan returns `none` exactly when the position matcher fails at every
suffix. -/
theorem scanWith_eq_none_iff (f : List Char → Option (List Char)) (hf0 : f [] = none)
    (cs : List Char) : scanWith f cs = none ↔ ∀ i, f (cs.drop i) = none := by
  induction cs with
  | nil => simp [scanWith, List.drop_nil, hf0]
  | cons c cs ih =>
    constructor
    · intro h i
      cases hf : f (c :: cs) with
      | some r => simp [scanWith, hf] at h
      | none =>
        have hstep : scanWith f cs = none := by simpa [scanWith, hf] using h
        cases i with
        | zero => simpa using hf
        | succ i => exact (ih.mp hstep) i
    · intro h
      have h0 := h 0
      simp only [List.drop_zero] at h0
      simp only [scanWith, h0]
      exact ih.mpr (fun i => h (i + 1))

/-- The scan returns the result of the first position where the matcher
succeeds. -/
theorem scanWith_eq_of_first (f : List Char → Option (List Char)) (hf0 : f [] = none)
    (cs : List Char) (i : Nat) (r : List Char)
    (hnone : ∀ j, j < i → f (cs.drop j) = none) (hsome : f (cs.drop i) = some r) :
    scanWith f cs = some r := by
  induction cs generalizing i with
  | nil => exact absurd hsome (by simp [List.drop_nil, hf0])
  | cons c cs ih =>
    cases i with
    | zero =>
      simp only [List.drop_zero] at hsome
      simp [scanWith, hsome]
    | succ i =>
      have h0 : f (c :: cs) = none := by simpa using hnone 0 (Nat.succ_pos i)
      have hstep : scanWith f (c :: cs) = scanWith f cs := by simp [scanWith, h0]
      rw [hstep]
      exact ih i (fun j hj => hnone (j + 1) (by omega)) hsome

/-- The helper's position matcher agrees with the spec's description of one
position: case-insensitive literal, non-empty token run, `/`/`?`/end
terminator, capturing the run. -/
theorem matchFrom_spec (cs : List Char) :
    matchFrom cs = if specMatchSuffix cs then some (specTokenSuffix cs) else none := by
  have hcc : specTokenChar = classChar := rfl
  unfold matchFrom specMatchSuffix specTokenSuffix
  rw [hcc]
  by_cases h1 : ciStartsWith litChars cs = true
  · rw [if_pos h1, h1, Bool.true_and]
    cases hrun : ((cs.drop litChars.length).takeWhile classChar).isEmpty
    · simp only [Bool.not_false, Bool.true_and, Bool.false_eq_true, if_false]
      cases hrest : (cs.drop litChars.length).dropWhile classChar with
      | nil => simp [specTerminatorOk]
      | cons c rest' => simp only [specTerminatorOk]
    · simp
  · have h1f : ciStartsWith litChars cs = false := by
      cases hci : ciStartsWith litChars cs
      · rfl
      · exact absurd hci h1
    rw [if_neg h1, h1f, Bool.false_and, if_neg (by simp)]

theorem specMatchSuffix_nil_false : specMatchSuffix [] = false := by decide

/-- C1: the helper extractor follows the spec exactly — a null URL yields no
identifier; a URL with no position matching `linkedin.com/in/` +
non-empty token run + `/`/`?`/end terminator (case-insensitively) yields no
identifier; and at the first matching position the captured run is returned
lowercased.  Totality of `extractLinkedInId` models "never throws". -/
theorem extract_id_follows_spec (url? : Option String) :
    (url? = none → extractLinkedInId url? = none) ∧
    (∀ s, url? = some s →
      ((∀ i, i < s.toList.length → specMatchSuffix (s.toList.drop i) = false) →
        extractLinkedInId url? = none) ∧
      (∀ i, specMatchSuffix (s.toList.drop i) = true →
        (∀ j, j < i → specMatchSuffix (s.toList.drop j) = false) →
        extractLinkedInId url? = some
          (String.mk ((specTokenSuffix (s.toList.drop i)).map Char.toLower)))) := by
  refine ⟨fun h => by rw [h]; rfl, fun s hs => ⟨?_, ?_⟩⟩
  · intro hall
    subst hs
    by_cases hempty : s = ""
    · rw [hempty]; rfl
    · have hscan : scanWith matchFrom s.toList = none := by
        refine (scanWith_eq_none_iff matchFrom matchFrom_nil s.toList).mpr (fun i => ?_)
        rw [matchFrom_spec]
        by_cases hi : i < s.toList.length
        · rw [hall i hi]
          simp
        · have hdrop : s.toList.drop i = [] := List.drop_eq_nil_of_le (by omega)
          rw [hdrop, specMatchSuffix_nil_false]
          simp
      simp only [extractLinkedInId, if_neg hempty, hscan]
  · intro i hi hfirst
    subst hs
    have hempty : s ≠ "" := by
      intro h
      rw [h] at hi
      have hd : (("" : String).toList.drop i) = [] := by
        rw [show ("" : String).toList = [] from rfl, List.drop_nil]
      rw [hd, specMatchSuffix_nil_false] at hi
      exact Bool.false_ne_true hi
    have hscan : scanWith matchFrom s.toList = some (specTokenSuffix (s.toList.drop i)) := by
      refine scanWith_eq_of_first matchFrom matchFrom_nil s.toList i _ (fun j hj => ?_) ?_
      · rw [matchFrom_spec, hfirst j hj]
        simp
      · rw [matchFrom_spec, hi]
        simp
    simp only [extractLinkedInId, if_neg hempty, hscan]

/-- Witness for C1: a canonical profile URL yields the lowercased token, a
URL with no matching position yields none, and a null URL yields none. -/
theorem extract_id_witness :
    extractLinkedInId (some "https://linkedin.com/in/Alice-Smith?x=1") = some "alice-smith" ∧
    extractLinkedInId (some "https://example.com/page") = none ∧
    extractLinkedInId none = none := by
  have h1 := extract_id_follows_spec (some "https://linkedin.com/in/Alice-Smith?x=1")
  have h2 := extract_id_follows_spec (some "https://example.com/page")
  have h3 := extract_id_follows_spec none
  refine ⟨?_, (h2.2 _ rfl).1 (by decide), h3.1 rfl⟩
  rw [(h1.2 _ rfl).2 8 (by decide) (by decide)]
  rfl

theorem litChars_lower : ∀ c ∈ litChars, Char.toLower c = c := by decide

/-- An exact match of an already-lowercase pattern is in particular a
case-insensitive match. -/
theorem exact_imp_ci : ∀ pat : List Char, (∀ c ∈ pat, Char.toLower c = c) →
    ∀ cs : List Char, pat.isPrefixOf cs = true → ciStartsWith pat cs = true := by
  intro pat
  induction pat with
  | nil => intro _ cs _; rfl
  | cons p ps ih =>
    intro hl cs hpre
    cases cs with
    | nil => simp [List.isPrefixOf] at hpre
    | cons c cs' =>
      have hsplit : (p == c) = true ∧ ps.isPrefixOf cs' = true := by
        simpa [List.isPrefixOf] using hpre
      have hpc : p = c := eq_of_beq hsplit.1
      have hlow : Char.toLower c = p := by
        rw [← hpc]
        exact hl p (List.mem_cons_self p ps)
      have htail : ciStartsWith ps cs' = true :=
        ih (fun a ha => hl a (List.mem_cons_of_mem p ha)) cs' hsplit.2
      simp [ciStartsWith, hlow, htail]

/-- A class character is neither `/` nor `?`. -/
theorem class_imp_id (c : Char) (h : classChar c = true) : idChar c = true := by
  unfold idChar
  by_cases h1 : c = '/'
  · rw [h1] at h
    exact absurd h (by decide)
  · by_cases h2 : c = '?'
    · rw [h2] at h
      exact absurd h (by decide)
    · simp [h1, h2]

theorem takeWhile_append_all {p : Char → Bool} (l₁ l₂ : List Char)
    (h : ∀ a ∈ l₁, p a = true) :
    (l₁ ++ l₂).takeWhile p = l₁ ++ l₂.takeWhile p := by
  induction l₁ with
  | nil => simp
  | cons a l ih =>
    have ha : p a = true := h a (List.mem_cons_self a l)
    simp [List.takeWhile_cons, ha, ih (fun b hb => h b (List.mem_cons_of_mem a hb))]

/-- C10 (amended): on a URL whose first case-insensitive occurrence of
`linkedin.com/in/` is written exactly in lowercase and is followed by a
non-empty run of class characters terminated by `/`, `?`, or end-of-string,
the duplicate-check helper and the Profile model's pre-save extractor return
the same (present) identifier. -/
theorem extractors_agree_on_canonical_url (s : String) (i : Nat)
    (hfirstCI : ∀ j, j < i → ciStartsWith litChars (s.toList.drop j) = false)
    (hexact : litChars.isPrefixOf (s.toList.drop i) = true)
    (hrun : ((s.toList.drop i).drop litChars.length).takeWhile classChar ≠ [])
    (hterm :
      specTerminatorOk (((s.toList.drop i).drop litChars.length).dropWhile classChar) = true) :
    extractLinkedInId (some s) = profileExtractLinkedInId (some s) ∧
    (extractLinkedInId (some s)).isSome = true := by
  have hempty : s ≠ "" := by
    intro h
    rw [h] at hexact
    rw [show ("" : String).toList = [] from rfl, List.drop_nil] at hexact
    exact absurd hexact (by decide)
  have hci : ciStartsWith litChars (s.toList.drop i) = true :=
    exact_imp_ci litChars litChars_lower _ hexact
  have hrunE : (((s.toList.drop i).drop litChars.length).takeWhile classChar).isEmpty = false :=
    List.isEmpty_eq_false.mpr hrun
  have hm : matchFrom (s.toList.drop i) =
      some (((s.toList.drop i).drop litChars.length).takeWhile classChar) := by
    unfold matchFrom
    rw [if_pos hci, hrunE, if_neg (by simp)]
    cases hrest : ((s.toList.drop i).drop litChars.length).dropWhile classChar with
    | nil => rfl
    | cons c rest' =>
      rw [hrest] at hterm
      have hc : (c = '/' || c = '?') = true := by simpa [specTerminatorOk] using hterm
      simp [hc]
  have hmj : ∀ j, j < i → matchFrom (s.toList.drop j) = none := by
    intro j hj
    unfold matchFrom
    rw [if_neg (by rw [hfirstCI j hj]; exact Bool.false_ne_true)]
  have hpj : ∀ j, j < i → profileMatchFrom (s.toList.drop j) = none := by
    intro j hj
    have hpre : ¬litChars.isPrefixOf (s.toList.drop j) = true := by
      intro hp
      have := exact_imp_ci litChars litChars_lower _ hp
      rw [hfirstCI j hj] at this
      exact Bool.false_ne_true this
    unfold profileMatchFrom
    rw [if_neg hpre]
  have hruneq : ((s.toList.drop i).drop litChars.length).takeWhile idChar =
      ((s.toList.drop i).drop litChars.length).takeWhile classChar := by
    conv_lhs =>
      rw [← List.takeWhile_append_dropWhile classChar ((s.toList.drop i).drop litChars.length)]
    rw [takeWhile_append_all _ _
      (fun a ha => class_imp_id a (List.mem_takeWhile_imp ha))]
    cases hrest : ((s.toList.drop i).drop litChars.length).dropWhile classChar with
    | nil => simp
    | cons c rest' =>
      rw [hrest] at hterm
      have hc : c = '/' ∨ c = '?' := by simpa [specTerminatorOk] using hterm
      have hid : ¬idChar c = true := by
        rcases hc with h | h <;> simp [idChar, h]
      rw [List.takeWhile_cons, if_neg hid, List.append_nil]
  have hp : profileMatchFrom (s.toList.drop i) =
      some (((s.toList.drop i).drop litChars.length).takeWhile classChar) := by
    unfold profileMatchFrom
    rw [if_pos hexact, hruneq, hrunE, if_neg (by simp)]
  have hscan1 : scanWith matchFrom s.toList =
      some (((s.toList.drop i).drop litChars.length).takeWhile classChar) :=
    scanWith_eq_of_first matchFrom matchFrom_nil s.toList i _ hmj hm
  have hscan2 : scanWith profileMatchFrom s.toList =
      some (((s.toList.drop i).drop litChars.length).takeWhile classChar) :=
    scanWith_eq_of_first profileMatchFrom profileMatchFrom_nil s.toList i _ hpj hp
  simp only [extractLinkedInId, profileExtractLinkedInId, if_neg hempty, hscan1, hscan2]
  constructor <;> trivial

/-- Witness for the amended C10 at a canonical profile URL. -/
theorem extractors_agree_witness :
    extractLinkedInId (some "https://www.linkedin.com/in/John-Doe") =
      profileExtractLinkedInId (some "https://www.linkedin.com/in/John-Doe") ∧
    (extractLinkedInId (some "https://www.linkedin.com/in/John-Doe")).isSome = true :=
  extractors_agree_on_canonical_url "https://www.linkedin.com/in/John-Doe" 12
    (by decide) (by decide) (by decide) (by decide)

/-- Counterexample to C10 as stated: on `linkedin.com/in/foo#bar` the helper
requires a `/`, `?`, or end-of-string terminator and finds none (no
identifier), while the Profile model's regex captures everything up to the
next `/` or `?` and returns "foo#bar" — so the duplicate-lookup key and the
stored `linkedinId` differ. -/
theorem extractors_disagree_on_unterminated_token :
    extractLinkedInId (some "linkedin.com/in/foo#bar") = none ∧
    profileExtractLinkedInId (some "linkedin.com/in/foo#bar") = some "foo#bar" := by
  decide

/-- Witness for C5: a record with a name but no experience, company, or job
title is rejected with the insufficient-data reason and never persisted. -/
theorem persistence_acceptance_witness :
    (processItem inputPlain (some rawNameOnly) "u" 2025 (fun _ => SaveOutcome.ok)).1.success =
      false ∧
    (processItem inputPlain (some rawNameOnly) "u" 2025 (fun _ => SaveOutcome.ok)).1.error =
      some insufficientMsg ∧
    (processItem inputPlain (some rawNameOnly) "u" 2025 (fun _ => SaveOutcome.ok)).2 = false :=
  (persistence_acceptance_iff_minimum_data inputPlain rawNameOnly "u" 2025
      (fun _ => SaveOutcome.ok)).2 (by decide)
